import Mathlib

/-!
Shallow embedding of the icon-cache service worker (src/unnamed/part_001)
of the miaoing-tab repository.

The service worker maintains a redirect mapping (chrome.storage.local under
the key icon-redirect-map), a keyed cache of responses (the Cache API
namespace miaowing-tab-icon-cache-v1), and a fetch handler tying the pieces
together. Persistent object maps and the cache keyspace are modelled as
association lists over strings; a response is modelled by the fields the
worker reads (headers, status, final url, body), with the headers restricted
to the three header names the code inspects and the Date header represented
by its parsed timestamp.
-/

/-- Mirrors the semantics of the JavaScript expression s.includes(pat) at the
level of character lists: true iff pat occurs as a contiguous substring of s
(the empty pattern occurs in every string). -/
def charsHavePrefix : List Char → List Char → Bool
  | _, [] => true
  | [], _ :: _ => false
  | c :: cs, p :: ps => c = p && charsHavePrefix cs ps

/-- Helper for strIncludes: does pat occur anywhere in s? -/
def charsContain : List Char → List Char → Bool
  | [], pat => pat.isEmpty
  | s@(_ :: cs), pat => charsHavePrefix s pat || charsContain cs pat

/-- JavaScript String.prototype.includes, used by the worker for the
Cache-Control, Content-Type and /assets/ checks. -/
def strIncludes (s pat : String) : Bool :=
  charsContain s.toList pat.toList

/-- ICON_CACHE_DURATION from part_001 line 3: thirty days in milliseconds. -/
def ICON_CACHE_DURATION : Int := 30 * 24 * 60 * 60 * 1000

/-- The response headers the service worker reads. cacheControl? models
headers.get of Cache-Control, date? models the parsed timestamp
new Date(headers.get of Date).getTime(), contentType? models headers.get of
Content-Type; none models an absent (or, for Date, falsy) header. -/
structure WHeaders where
  cacheControl? : Option String
  date? : Option Int
  contentType? : Option String
deriving DecidableEq

/-- A fetch Response as the worker observes it: its headers (none models a
null headers field), its HTTP status, the final URL it was served from after
redirects (response.url), and its body text. -/
structure WResponse where
  headers? : Option WHeaders
  status : Nat
  url : String
  body : String
deriving DecidableEq

/-- Association-list lookup, modelling reading a property of a JavaScript
object used as a string-keyed map (undefined becomes none). -/
def assocGet {α : Type} : List (String × α) → String → Option α
  | [], _ => none
  | (k, v) :: rest, key => if k = key then some v else assocGet rest key

/-- Association-list update, modelling the assignment obj[key] = v:
overwrites the binding for key if present, otherwise appends it. -/
def assocSet {α : Type} : List (String × α) → String → α → List (String × α)
  | [], key, v => [(key, v)]
  | (k, w) :: rest, key, v =>
      if k = key then (key, v) :: rest else (k, w) :: assocSet rest key v

/-- Association-list deletion, modelling cache.delete(request): removes every
binding for the key. -/
def assocDel {α : Type} : List (String × α) → String → List (String × α)
  | [], _ => []
  | (k, w) :: rest, key =>
      if k = key then assocDel rest key else (k, w) :: assocDel rest key

/-- The persistent redirect mapping stored under icon-redirect-map. -/
abbrev RedirectMap := List (String × String)

/-- The icon cache namespace: cache keys (URL strings) to stored responses. -/
abbrev CacheStore := List (String × WResponse)

/-- The outcome of one chrome.storage.local read of the allow list
cached-online-icon-urls: ok (some urls) when an array was stored, ok none
when the key is absent or holds a non-array value, err when the read threw.
The code also returns an empty set when the chrome.storage API is
unavailable; that branch coincides with ok none here. -/
inductive AllowListRead where
  | ok (v? : Option (List String))
  | err
deriving DecidableEq

/-- getCachedIconUrls, part_001 lines 9-24: yields the stored array as a set,
and the empty set when the key is absent, holds a non-array, or the read
fails. -/
def getCachedIconUrls : AllowListRead → List String
  | .ok (some urls) => urls
  | .ok none => []
  | .err => []

/-- isIconRequest, part_001 lines 89-107: false for URLs containing /assets/,
otherwise membership in the cached allow list; pure, and any read error
yields false via the empty set. -/
def isIconRequest (read : AllowListRead) (url : String) : Bool :=
  if strIncludes url "/assets/" then false
  else (getCachedIconUrls read).contains url

/-- saveRedirectMapping, part_001 lines 47-68: a no-op when the two URLs are
equal, otherwise overwrites the binding for originalUrl with finalUrl. -/
def saveRedirectMapping (m : RedirectMap) (originalUrl finalUrl : String) :
    RedirectMap :=
  if originalUrl = finalUrl then m
  else assocSet m originalUrl finalUrl

/-- resolveRedirectUrl, part_001 lines 73-84: returns the mapped value when
the lookup redirectMap[originalUrl] is truthy (present and non-empty),
otherwise the original URL. -/
def resolveRedirectUrl (m : RedirectMap) (originalUrl : String) : String :=
  match assocGet m originalUrl with
  | some finalUrl => if finalUrl = "" then originalUrl else finalUrl
  | none => originalUrl

/-- isCacheExpired, part_001 lines 112-134: expired when the response or its
headers are missing, when Cache-Control is truthy and includes no-store, when
the Date header is falsy, or when the age now - date strictly exceeds
ICON_CACHE_DURATION. The guard on a truthy Cache-Control agrees with testing
includes on any present value, since includes of no-store in the empty
string is false. -/
def isCacheExpired (now : Int) : Option WResponse → Bool
  | none => true
  | some r =>
    match r.headers? with
    | none => true
    | some h =>
      if (match h.cacheControl? with
          | some cc => strIncludes cc "no-store"
          | none => false) then
        true
      else
        match h.date? with
        | none => true
        | some d => decide (now - d > ICON_CACHE_DURATION)

/-- isImageResponse, part_001 lines 167-190: the response and its headers
exist, the Content-Type header is present, and the header value contains one
of the eight listed image MIME types as a substring. -/
def imageTypes : List String :=
  ["image/png", "image/jpeg", "image/gif", "image/webp", "image/svg+xml",
   "image/x-icon", "image/vnd.microsoft.icon", "image/ico"]

/-- isImageResponse proper (the list above is the imageTypes constant from
part_001 lines 178-187). -/
def isImageResponse : Option WResponse → Bool
  | none => false
  | some r =>
    match r.headers? with
    | none => false
    | some h =>
      match h.contentType? with
      | none => false
      | some ct => imageTypes.any fun t => strIncludes ct t

/-- cacheIcon, part_001 lines 195-210: skips the write when the response is
not an image response, otherwise puts the response into the cache under the
request key. -/
def cacheIcon (store : CacheStore) (key : String) (r : WResponse) :
    CacheStore :=
  if isImageResponse (some r) then assocSet store key r else store

/-- getIconFromCache, part_001 lines 139-162: looks the key up in the cache;
a fresh hit is returned with the store untouched, an expired hit is deleted
and reported as a miss, and an absent key is a miss. Returns the value found
together with the store after the call. -/
def getIconFromCache (now : Int) (store : CacheStore) (key : String) :
    Option WResponse × CacheStore :=
  match assocGet store key with
  | none => (none, store)
  | some r =>
      if isCacheExpired now (some r) then (none, assocDel store key)
      else (some r, store)

/-- The base64 payload of the 1x1 transparent placeholder, part_001 line
321. -/
def placeholderBody : String :=
  "iVBORw0KGgoAAAANSUhEUgAAAAEAAAABCAYAAAAfFcSJAAAADUlEQVR42mNkYPhfDwAChAI9jU76/gAAAABJRU5ErkJggg=="

/-- The placeholder Response built in the catch branch, part_001 lines
320-325: the base64 body with a single Content-Type header of image/png;
the Response constructor defaults to status 200 and an empty url. -/
def placeholderResponse : WResponse :=
  { headers? := some { cacheControl? := none, date? := none,
                       contentType? := some "image/png" },
    status := 200, url := "", body := placeholderBody }

/-- The outcome of one network fetch: fail models a rejected promise (DNS
error, connection refused, timeout), success models a resolved promise, with
none standing for a null resolved value (the defensive check at part_001
line 283). -/
inductive FetchOutcome where
  | fail
  | success (r? : Option WResponse)
deriving DecidableEq

/-- What the fetch handler resolves event.respondWith with: ok r? when the
async function returned the value r?, thrown when it propagated a
rejection. -/
inductive HandleOutcome where
  | ok (r? : Option WResponse)
  | thrown
deriving DecidableEq

/-- The environment one invocation of the handler runs in: the allow-list
read, the current time used by the freshness checks, and the network as a
map from URL to fetch outcome. -/
structure Env where
  allowRead : AllowListRead
  now : Int
  network : String → FetchOutcome

/-- The observable result of one handler invocation: what it responded, the
redirect map and cache store afterwards, and the URLs it fetched from the
network, in order. -/
structure HandleOut where
  outcome : HandleOutcome
  redirectMap : RedirectMap
  cacheStore : CacheStore
  fetched : List String
deriving DecidableEq

/-- The cache key chosen at part_001 lines 252-257: the resolved redirect
URL when it differs from the original URL, the original URL otherwise. -/
def cacheKeyOf (m : RedirectMap) (url : String) : String :=
  let redirectUrl := resolveRedirectUrl m url
  if redirectUrl ≠ url then redirectUrl else url

/-- The catch branch of the handler, part_001 lines 308-326: one raw
caches.match lookup of the cache key with no freshness check, returning the
entry if found and the placeholder response otherwise. -/
def fallbackResult (m : RedirectMap) (store : CacheStore)
    (cacheKey url : String) : HandleOut :=
  match assocGet store cacheKey with
  | some cached =>
      { outcome := .ok (some cached), redirectMap := m, cacheStore := store,
        fetched := [url] }
  | none =>
      { outcome := .ok (some placeholderResponse), redirectMap := m,
        cacheStore := store, fetched := [url] }

/-- The pass-through branch, part_001 lines 246-249: one plain fetch of the
request, its resolved value returned verbatim, a rejection propagated. -/
def passThroughResult (env : Env) (m : RedirectMap) (store : CacheStore)
    (url : String) : HandleOut :=
  { outcome :=
      match env.network url with
      | .fail => .thrown
      | .success r? => .ok r?,
    redirectMap := m, cacheStore := store, fetched := [url] }

/-- The fetch event handler, part_001 lines 240-329. Classify; resolve the
cache key; try the cache (which deletes an expired hit); on a miss fetch the
original URL; on a response record the redirect mapping when the final URL
is truthy and differs, cache under the final URL or the cache key when the
status is in [200,400); return the response (a non-ok status only logs a
warning); on a rejected or null fetch fall back to a raw cache lookup or
the placeholder. -/
def handle (env : Env) (m : RedirectMap) (store : CacheStore) (url : String) :
    HandleOut :=
  if isIconRequest env.allowRead url then
    let cacheKey := cacheKeyOf m url
    let looked := getIconFromCache env.now store cacheKey
    match looked.1 with
    | some cached =>
        { outcome := .ok (some cached), redirectMap := m,
          cacheStore := looked.2, fetched := [] }
    | none =>
        match env.network url with
        | .fail => fallbackResult m looked.2 cacheKey url
        | .success none => fallbackResult m looked.2 cacheKey url
        | .success (some r) =>
            if r.url ≠ "" ∧ r.url ≠ url then
              { outcome := .ok (some r),
                redirectMap := saveRedirectMapping m url r.url,
                cacheStore :=
                  if 200 ≤ r.status ∧ r.status < 400 then
                    cacheIcon looked.2 r.url r
                  else looked.2,
                fetched := [url] }
            else
              { outcome := .ok (some r),
                redirectMap := m,
                cacheStore :=
                  if 200 ≤ r.status ∧ r.status < 400 then
                    cacheIcon looked.2 cacheKey r
                  else looked.2,
                fetched := [url] }
  else
    passThroughResult env m store url

/-- A fresh image entry used as concrete cached data in the scenarios
below. -/
def staleEntry : WResponse :=
  { headers? := some { cacheControl? := none, date? := some 0,
                       contentType? := some "image/png" },
    status := 200, url := "https://a", body := "ENTRY" }

/-- An environment whose network always fails at the transport level and
whose allow list contains https://a. -/
def staleEnv : Env :=
  { allowRead := .ok (some ["https://a"]), now := 0,
    network := fun _ => .fail }

/-- A 200 image response whose final URL is the empty string. -/
def emptyUrlResp : WResponse :=
  { headers? := some { cacheControl? := none, date? := some 0,
                       contentType? := some "image/png" },
    status := 200, url := "", body := "R" }

/-- An environment whose network yields emptyUrlResp for every URL. -/
def emptyUrlEnv : Env :=
  { allowRead := .ok (some ["https://a"]), now := 0,
    network := fun _ => .success (some emptyUrlResp) }

/-- A 200 image response redirected to https://b. -/
def redirResp : WResponse :=
  { headers? := some { cacheControl? := none, date? := some 0,
                       contentType? := some "image/png" },
    status := 200, url := "https://b", body := "R" }

/-- An environment whose network yields redirResp for every URL. -/
def redirEnv : Env :=
  { allowRead := .ok (some ["https://a"]), now := 0,
    network := fun _ => .success (some redirResp) }

/-- A 404 image response served from the requested URL itself. -/
def notOkResp : WResponse :=
  { headers? := some { cacheControl? := none, date? := some 0,
                       contentType? := some "image/png" },
    status := 404, url := "https://a", body := "E" }

/-- An environment whose network yields notOkResp for every URL. -/
def notOkEnv : Env :=
  { allowRead := .ok (some ["https://a"]), now := 0,
    network := fun _ => .success (some notOkResp) }

/-- A plain response for the pass-through scenario. -/
def ptResp : WResponse :=
  { headers? := some { cacheControl? := none, date? := some 0,
                       contentType? := some "text/html" },
    status := 200, url := "https://z", body := "HTML" }

/-- An environment with an empty allow list whose network yields ptResp. -/
def ptEnv : Env :=
  { allowRead := .ok none, now := 0,
    network := fun _ => .success (some ptResp) }

/-- A 200 response whose Content-Type notimage/png contains image/png as a
substring without being a member of the imageTypes list. -/
def mockNonImageTyped : WResponse :=
  { headers? := some { cacheControl? := none, date? := none,
                       contentType? := some "notimage/png" },
    status := 200, url := "https://x", body := "B" }

/-- noSelfMapping: no key of the redirect map is bound to itself. -/
def noSelfMapping (m : RedirectMap) : Prop := ∀ k, assocGet m k ≠ some k

theorem assocGet_assocSet_self {α : Type} (m : List (String × α))
    (k : String) (v : α) : assocGet (assocSet m k v) k = some v := by
  induction m with
  | nil => simp [assocSet, assocGet]
  | cons p rest ih =>
      obtain ⟨k₀, v₀⟩ := p
      by_cases h : k₀ = k
      · subst h
        simp [assocSet, assocGet]
      · simp [assocSet, assocGet, h, ih]

theorem assocGet_assocSet_ne {α : Type} (m : List (String × α))
    (k k' : String) (v : α) (h : k' ≠ k) :
    assocGet (assocSet m k v) k' = assocGet m k' := by
  induction m with
  | nil => simp [assocSet, assocGet, Ne.symm h]
  | cons p rest ih =>
      obtain ⟨k₀, v₀⟩ := p
      by_cases hk : k₀ = k
      · subst hk
        simp [assocSet, assocGet, Ne.symm h]
      · simp only [assocSet, if_neg hk]
        by_cases hk' : k₀ = k'
        · subst hk'
          simp [assocGet]
        · simp [assocGet, hk', ih]

/-- C2: isCacheExpired returns true iff the entry or its headers are
missing, or the Cache-Control header contains no-store, or the Date header
is absent, or the age now - date strictly exceeds the fixed thirty-day
ICON_CACHE_DURATION; an entry aged exactly thirty days is not expired and
one aged thirty days plus one millisecond is expired. -/
theorem isCacheExpired_spec :
    (∀ (now : Int) (r? : Option WResponse),
      isCacheExpired now r? = true ↔
        (r? = none ∨ ∃ r, r? = some r ∧
          (r.headers? = none ∨ ∃ h, r.headers? = some h ∧
            ((∃ cc, h.cacheControl? = some cc ∧
                strIncludes cc "no-store" = true) ∨
             h.date? = none ∨
             (∃ d, h.date? = some d ∧ now - d > ICON_CACHE_DURATION))))) ∧
    (∀ (t : Int) (ct : Option String) (s : Nat) (u b : String),
      isCacheExpired (t + ICON_CACHE_DURATION)
        (some { headers? := some { cacheControl? := none, date? := some t,
                                   contentType? := ct },
                status := s, url := u, body := b }) = false) ∧
    (∀ (t : Int) (ct : Option String) (s : Nat) (u b : String),
      isCacheExpired (t + ICON_CACHE_DURATION + 1)
        (some { headers? := some { cacheControl? := none, date? := some t,
                                   contentType? := ct },
                status := s, url := u, body := b }) = true) := by
  refine ⟨?_, ?_, ?_⟩
  · intro now r?
    cases r? with
    | none => simp [isCacheExpired]
    | some r =>
      obtain ⟨h?, s, u, b⟩ := r
      cases h? with
      | none => simp [isCacheExpired]
      | some h =>
        obtain ⟨cc?, d?, ct?⟩ := h
        cases cc? with
        | none =>
          cases d? with
          | none => simp [isCacheExpired]
          | some d => simp [isCacheExpired]
        | some cc =>
          cases hcc : strIncludes cc "no-store" with
          | true => simp [isCacheExpired, hcc]
          | false =>
            cases d? with
            | none => simp [isCacheExpired, hcc]
            | some d => simp [isCacheExpired, hcc]
  · intro t ct s u b
    simp [isCacheExpired, ICON_CACHE_DURATION]
  · intro t ct s u b
    simp [isCacheExpired, ICON_CACHE_DURATION]
    omega

/-- Witness for C2: a missing entry is expired. -/
theorem isCacheExpired_spec_witness : isCacheExpired 0 none = true :=
  (isCacheExpired_spec.1 0 none).mpr (Or.inl rfl)

/-- C9: isIconRequest is false for every URL containing the reserved
local-asset path /assets/, and otherwise true exactly when the URL is a
member of the allow list read from storage; a read error yields the empty
allow list, hence false, and the function is pure (modelled as a function of
the read outcome alone). -/
theorem isIconRequest_spec :
    (∀ (read : AllowListRead) (url : String),
      strIncludes url "/assets/" = true → isIconRequest read url = false) ∧
    (∀ (read : AllowListRead) (url : String),
      strIncludes url "/assets/" = false →
        (isIconRequest read url = true ↔ url ∈ getCachedIconUrls read)) ∧
    (∀ url : String, isIconRequest .err url = false) := by
  refine ⟨?_, ?_, ?_⟩
  · intro read url h
    simp [isIconRequest, h]
  · intro read url h
    simp [isIconRequest, h, List.elem_iff]
  · intro url
    simp [isIconRequest, getCachedIconUrls]

/-- Witness for C9: an allow-listed URL is an icon request. -/
theorem isIconRequest_spec_witness :
    isIconRequest (.ok (some ["https://a"])) "https://a" = true :=
  (isIconRequest_spec.2.1 (.ok (some ["https://a"])) "https://a"
    (by decide)).mpr (by decide)

/-- C4 counterexample: after record of the mapping https://a to the empty
string, a mapping for https://a is recorded in the table, yet resolve
returns the original URL rather than the mapped value, because the code
tests the looked-up value for truthiness and the empty string is falsy. -/
theorem resolveRedirectUrl_truthiness_counterexample :
    assocGet (saveRedirectMapping [] "https://a" "") "https://a" = some "" ∧
    resolveRedirectUrl (saveRedirectMapping [] "https://a" "") "https://a"
      = "https://a" ∧
    ("https://a" : String) ≠ "" := by
  refine ⟨by decide, by decide, by decide⟩

/-- C4 amended: resolve performs a single-level lookup, returning the mapped
finalUrl when a recorded mapping with a non-empty value exists and the
original URL when no mapping is recorded or the recorded value is the empty
string; no transitive chain-following happens even when the table contains a
chain. -/
theorem resolveRedirectUrl_single_level :
    (∀ (m : RedirectMap) (u f : String),
      assocGet m u = some f → f ≠ "" → resolveRedirectUrl m u = f) ∧
    (∀ (m : RedirectMap) (u : String),
      assocGet m u = none → resolveRedirectUrl m u = u) ∧
    (∀ (m : RedirectMap) (u : String),
      assocGet m u = some "" → resolveRedirectUrl m u = u) ∧
    (∀ (u f g : String), f ≠ "" →
      resolveRedirectUrl ((u, f) :: (f, g) :: []) u = f) := by
  refine ⟨?_, ?_, ?_, ?_⟩
  · intro m u f hm hf
    simp [resolveRedirectUrl, hm, hf]
  · intro m u hm
    simp [resolveRedirectUrl, hm]
  · intro m u hm
    simp [resolveRedirectUrl, hm]
  · intro u f g hf
    simp [resolveRedirectUrl, assocGet, hf]

/-- Witness for C4 amended: with a chain from https://a to https://b to
https://c recorded, resolve of https://a yields https://b, one level only. -/
theorem resolveRedirectUrl_single_level_witness :
    resolveRedirectUrl
      [("https://a", "https://b"), ("https://b", "https://c")] "https://a"
      = "https://b" :=
  resolveRedirectUrl_single_level.2.2.2 "https://a" "https://b" "https://c"
    (by decide)


/-- C5: record is a no-op when the two URLs coincide, otherwise it
unconditionally overwrites the binding for originalUrl (last write wins),
and every record call preserves the absence of self-mappings. -/
theorem saveRedirectMapping_spec :
    (∀ (m : RedirectMap) (u : String), saveRedirectMapping m u u = m) ∧
    (∀ (m : RedirectMap) (u f : String), u ≠ f →
      assocGet (saveRedirectMapping m u f) u = some f) ∧
    (∀ (m : RedirectMap) (u f : String), noSelfMapping m →
      noSelfMapping (saveRedirectMapping m u f)) := by
  refine ⟨?_, ?_, ?_⟩
  · intro m u
    simp [saveRedirectMapping]
  · intro m u f huf
    simp [saveRedirectMapping, huf, assocGet_assocSet_self]
  · intro m u f hm
    by_cases huf : u = f
    · simpa [saveRedirectMapping, huf] using hm
    · intro k
      by_cases hk : k = u
      · subst hk
        rw [saveRedirectMapping, if_neg huf, assocGet_assocSet_self]
        intro hc
        exact huf (Option.some.injEq .. ▸ hc).symm
      · rw [saveRedirectMapping, if_neg huf, assocGet_assocSet_ne m u k f hk]
        exact hm k

/-- Witness for C5: recording https://a to https://b stores that binding. -/
theorem saveRedirectMapping_spec_witness :
    assocGet (saveRedirectMapping [] "https://a" "https://b") "https://a"
      = some "https://b" :=
  saveRedirectMapping_spec.2.1 [] "https://a" "https://b" (by decide)

/-- C10: a successful record for key A with A different from B leaves the
binding of every other key of the redirect map unchanged. -/
theorem saveRedirectMapping_frame (m : RedirectMap) (A B k : String)
    (hAB : A ≠ B) (hk : k ≠ A) :
    assocGet (saveRedirectMapping m A B) k = assocGet m k := by
  rw [saveRedirectMapping, if_neg hAB]
  exact assocGet_assocSet_ne m A k B hk

/-- Witness for C10: recording https://a to https://b leaves the binding of
the unrelated key k0 unchanged. -/
theorem saveRedirectMapping_frame_witness :
    assocGet
      (saveRedirectMapping [("k0", "v0")] "https://a" "https://b") "k0"
      = assocGet [("k0", "v0")] "k0" :=
  saveRedirectMapping_frame [("k0", "v0")] "https://a" "https://b" "k0"
    (by decide) (by decide)

/-- C3 counterexample: a 200 response whose Content-Type header is
notimage/png passes the gate, because the code tests substring containment
of the image types rather than membership, and is written to the store; its
declared content-type is not one of the fixed allow-list. -/
theorem cacheIcon_membership_counterexample :
    assocGet (cacheIcon [] "https://x" mockNonImageTyped) "https://x"
      = some mockNonImageTyped ∧
    mockNonImageTyped.headers? =
      some { cacheControl? := none, date? := none,
             contentType? := some "notimage/png" } ∧
    "notimage/png" ∉ imageTypes := by
  refine ⟨by decide, rfl, by decide⟩

/-- C3 amended: every response cacheIcon writes contains one of the fixed
image MIME types as a substring of its Content-Type header (the invariant
isImageResponse holds for every stored entry after a write into a store
satisfying it), non-image responses are never written, and in particular a
response declaring Content-Type text/html is never written, whatever its
status. -/
theorem cacheIcon_gate :
    (∀ (store : CacheStore) (k : String) (r : WResponse),
      isImageResponse (some r) = false → cacheIcon store k r = store) ∧
    (∀ (store : CacheStore) (k : String) (r : WResponse),
      (∀ (k₀ : String) (r₀ : WResponse),
        assocGet store k₀ = some r₀ → isImageResponse (some r₀) = true) →
      ∀ (k₁ : String) (r₁ : WResponse),
        assocGet (cacheIcon store k r) k₁ = some r₁ →
        isImageResponse (some r₁) = true) ∧
    (∀ (store : CacheStore) (k : String) (s : Nat) (u b : String)
        (cc? : Option String) (d? : Option Int),
      cacheIcon store k
        { headers? := some { cacheControl? := cc?, date? := d?,
                             contentType? := some "text/html" },
          status := s, url := u, body := b } = store) := by
  refine ⟨?_, ?_, ?_⟩
  · intro store k r h
    simp [cacheIcon, h]
  · intro store k r hinv k₁ r₁ hget
    cases himg : isImageResponse (some r) with
    | false =>
      rw [cacheIcon, himg] at hget
      · exact hinv k₁ r₁ hget
    | true =>
      rw [cacheIcon, himg] at hget
      simp only [if_true] at hget
      by_cases hk : k₁ = k
      · subst hk
        rw [assocGet_assocSet_self] at hget
        cases hget
        exact himg
      · rw [assocGet_assocSet_ne store k k₁ r hk] at hget
        exact hinv k₁ r₁ hget
  · intro store k s u b cc? d?
    have h : isImageResponse (some
        { headers? := some { cacheControl? := cc?, date? := d?,
                             contentType? := some "text/html" },
          status := s, url := u, body := b }) = false := by rfl
    simp [cacheIcon, h]

/-- Witness for C3 amended: a text-typed response is never written. -/
theorem cacheIcon_gate_witness :
    cacheIcon [] "https://x"
      { headers? := some { cacheControl? := none, date? := none,
                           contentType? := some "text/plain" },
        status := 200, url := "https://x", body := "B" } = [] :=
  cacheIcon_gate.1 [] "https://x" _ (by decide)

theorem isIconRequest_eq_false_of_not_mem (read : AllowListRead)
    (url : String) (h : url ∉ getCachedIconUrls read) :
    isIconRequest read url = false := by
  rw [isIconRequest]
  split
  · rfl
  · simpa [List.elem_iff] using h

/-- C6: for a URL outside the allow list the handler takes the pass-through
branch: it issues exactly one plain fetch of that URL, leaves the redirect
map and the cache store untouched, and whenever that fetch resolves to a
response it returns that response verbatim. -/
theorem handle_passthrough (env : Env) (m : RedirectMap) (store : CacheStore)
    (url : String) (h : url ∉ getCachedIconUrls env.allowRead) :
    (handle env m store url).fetched = [url] ∧
    (handle env m store url).redirectMap = m ∧
    (handle env m store url).cacheStore = store ∧
    (∀ r?, env.network url = .success r? →
      (handle env m store url).outcome = .ok r?) := by
  have hicon := isIconRequest_eq_false_of_not_mem env.allowRead url h
  refine ⟨?_, ?_, ?_, ?_⟩
  · simp [handle, hicon, passThroughResult]
  · simp [handle, hicon, passThroughResult]
  · simp [handle, hicon, passThroughResult]
  · intro r? hr
    simp [handle, hicon, passThroughResult, hr]

/-- Witness for C6: with an empty allow list the handler passes a request
through, fetching it once and returning the network response. -/
theorem handle_passthrough_witness :
    (handle ptEnv [] [] "https://z").outcome = .ok (some ptResp) ∧
    (handle ptEnv [] [] "https://z").fetched = ["https://z"] ∧
    (handle ptEnv [] [] "https://z").cacheStore = [] :=
  ⟨(handle_passthrough ptEnv [] [] "https://z" (by decide)).2.2.2
      (some ptResp) rfl,
   (handle_passthrough ptEnv [] [] "https://z" (by decide)).1,
   (handle_passthrough ptEnv [] [] "https://z" (by decide)).2.2.1⟩

/-- C8: when the cache misses and the network yields a response whose status
is not ok (outside [200,300)), the handler still returns exactly that
response: the status is surfaced, never turned into a thrown error or the
placeholder. -/
theorem handle_surfaces_status (env : Env) (m : RedirectMap)
    (store : CacheStore) (url : String) (r : WResponse)
    (hIcon : isIconRequest env.allowRead url = true)
    (hMiss : (getIconFromCache env.now store (cacheKeyOf m url)).1 = none)
    (hNet : env.network url = .success (some r))
    (_hNotOk : ¬(200 ≤ r.status ∧ r.status < 300)) :
    (handle env m store url).outcome = .ok (some r) := by
  simp only [handle, hIcon, if_true, hMiss, hNet]
  split <;> rfl

/-- Witness for C8: a 404 network response is returned with its status. -/
theorem handle_surfaces_status_witness :
    (handle notOkEnv [] [] "https://a").outcome = .ok (some notOkResp) :=
  handle_surfaces_status notOkEnv [] [] "https://a" notOkResp
    (by decide) (by decide) rfl (by decide)

/-- C7 counterexample: the handler receives a response whose final URL (the
empty string) differs from the requested URL, yet no redirect mapping is
recorded, because the code additionally requires the final URL to be
truthy; the claim as stated would require the mapping table to gain a
binding for the requested URL. -/
theorem redirect_bookkeeping_counterexample :
    (handle emptyUrlEnv [] [] "https://a").redirectMap = [] ∧
    emptyUrlResp.url ≠ "https://a" ∧
    emptyUrlEnv.network "https://a" = .success (some emptyUrlResp) := by
  refine ⟨by decide, by decide, rfl⟩

/-- C7 amended: whenever the cache misses and a network response is
received whose final URL is non-empty and differs from the requested URL,
the handler records the mapping from the requested URL to the final URL
regardless of the HTTP status, and a transport-level failure leaves the
redirect map unchanged. -/
theorem handle_redirect_bookkeeping :
    (∀ (env : Env) (m : RedirectMap) (store : CacheStore) (url : String)
        (r : WResponse),
      isIconRequest env.allowRead url = true →
      (getIconFromCache env.now store (cacheKeyOf m url)).1 = none →
      env.network url = .success (some r) →
      r.url ≠ "" → r.url ≠ url →
      (handle env m store url).redirectMap = saveRedirectMapping m url r.url ∧
      assocGet (handle env m store url).redirectMap url = some r.url) ∧
    (∀ (env : Env) (m : RedirectMap) (store : CacheStore) (url : String),
      isIconRequest env.allowRead url = true →
      env.network url = .fail →
      (handle env m store url).redirectMap = m) := by
  constructor
  · intro env m store url r hIcon hMiss hNet hu hne
    have hmap : (handle env m store url).redirectMap
        = saveRedirectMapping m url r.url := by
      simp [handle, hIcon, hMiss, hNet, hu, hne]
    refine ⟨hmap, ?_⟩
    rw [hmap, saveRedirectMapping, if_neg (fun hc => hne hc.symm)]
    exact assocGet_assocSet_self m url r.url
  · intro env m store url hIcon hNet
    rw [handle, hIcon]
    simp only [if_true]
    cases hLook : (getIconFromCache env.now store (cacheKeyOf m url)).1 with
    | some cached => simp [hLook]
    | none =>
        simp only [hLook, hNet, fallbackResult]
        split <;> rfl

/-- Witness for C7 amended: a redirect from https://a to https://b is
recorded in the map, whatever the prior state of the other components. -/
theorem handle_redirect_bookkeeping_witness :
    (handle redirEnv [] [] "https://a").redirectMap
      = saveRedirectMapping [] "https://a" redirResp.url ∧
    assocGet (handle redirEnv [] [] "https://a").redirectMap "https://a"
      = some redirResp.url :=
  handle_redirect_bookkeeping.1 redirEnv [] [] "https://a" redirResp
    (by decide) (by decide) rfl (by decide) (by decide)

/-- C1 counterexample: the redirect map sends https://a to https://b and the
store holds an entry under the pre-resolution key https://a only; on a
transport failure the handler looks up the resolved key https://b, finds
nothing, and returns the placeholder, while the claimed lookup of the
pre-resolution key would have found the stored entry. -/
theorem handle_fallback_key_counterexample :
    (handle staleEnv [("https://a", "https://b")]
        [("https://a", staleEntry)] "https://a").outcome
      = .ok (some placeholderResponse) ∧
    assocGet [("https://a", staleEntry)] "https://a" = some staleEntry ∧
    staleEntry ≠ placeholderResponse ∧
    staleEnv.network "https://a" = .fail := by
  refine ⟨by decide, by decide, by decide, rfl⟩

/-- C1 amended: on a transport-level fetch failure after a cache miss the
handler performs one more raw cache lookup for the resolved cache key,
ignoring freshness, and returns the entry it finds; when that lookup finds
nothing it returns the fixed 1x1 transparent placeholder whose content-type
is image/png and whose body is non-empty; and on the whole classified path
the handler always returns some response and never throws. -/
theorem handle_failure_fallback :
    (∀ (env : Env) (m : RedirectMap) (store : CacheStore) (url : String),
      isIconRequest env.allowRead url = true →
      (getIconFromCache env.now store (cacheKeyOf m url)).1 = none →
      env.network url = .fail →
      (handle env m store url).outcome =
        (match assocGet (getIconFromCache env.now store (cacheKeyOf m url)).2
            (cacheKeyOf m url) with
         | some cached => HandleOutcome.ok (some cached)
         | none => HandleOutcome.ok (some placeholderResponse))) ∧
    (∀ (env : Env) (m : RedirectMap) (store : CacheStore) (url : String),
      isIconRequest env.allowRead url = true →
      ∃ r, (handle env m store url).outcome = .ok (some r)) ∧
    (placeholderResponse.headers? =
      some { cacheControl? := none, date? := none,
             contentType? := some "image/png" } ∧
     placeholderBody ≠ "") := by
  refine ⟨?_, ?_, rfl, by decide⟩
  · intro env m store url hIcon hMiss hFail
    simp only [handle, hIcon, if_true, hMiss, hFail, fallbackResult]
    cases hget : assocGet (getIconFromCache env.now store
        (cacheKeyOf m url)).2 (cacheKeyOf m url) with
    | some cached => simp [hget]
    | none => simp [hget]
  · intro env m store url hIcon
    rw [handle, hIcon]
    simp only [if_true]
    cases hLook : (getIconFromCache env.now store (cacheKeyOf m url)).1 with
    | some cached => exact ⟨cached, by simp [hLook]⟩
    | none =>
      cases hNet : env.network url with
      | fail =>
        simp only [hLook, hNet, fallbackResult]
        cases hget : assocGet (getIconFromCache env.now store
            (cacheKeyOf m url)).2 (cacheKeyOf m url) with
        | some cached => exact ⟨cached, by simp [hget]⟩
        | none => exact ⟨placeholderResponse, by simp [hget]⟩
      | success r? =>
        cases r? with
        | none =>
          simp only [hLook, hNet, fallbackResult]
          cases hget : assocGet (getIconFromCache env.now store
              (cacheKeyOf m url)).2 (cacheKeyOf m url) with
          | some cached => exact ⟨cached, by simp [hget]⟩
          | none => exact ⟨placeholderResponse, by simp [hget]⟩
        | some r =>
          refine ⟨r, ?_⟩
          simp only [hLook, hNet]
          by_cases hcond : r.url ≠ "" ∧ r.url ≠ url
          · simp [hcond]
          · simp [hcond]

/-- Witness for C1 amended: with nothing stored under the resolved key and a
failing network, the handler returns the placeholder response. -/
theorem handle_failure_fallback_witness :
    (handle staleEnv [] [] "https://a").outcome
      = .ok (some placeholderResponse) := by
  have h := handle_failure_fallback.1 staleEnv [] [] "https://a"
    (by decide) (by decide) rfl
  simpa using h
